import Mathlib

/-!
Verification of the risk gating and trade-risk-assessment engine of the
UX-builder repository (`backend/app/core/risk_engine.py` and
`backend/app/core/risk_manager.py`), against its natural-language
specification.

Modelling conventions:
* Python `Decimal` and `float` quantities are modelled as `ℚ`.
* Timestamps (`datetime`) are modelled as seconds (`ℕ`); the fixed-timezone
  local day key `_local_day` is modelled as `t / 86400` (the exact timezone
  offset is irrelevant to every property considered here, only that the day
  key is a fixed deterministic function of the timestamp).  The hysteresis
  comparison `now - last >= timedelta(seconds=60)` uses truncated `ℕ`
  subtraction, which agrees with the signed `datetime` difference on the
  commit condition (a negative difference is `< 60` in both models).
* The SQLAlchemy session is modelled as an explicit database value threaded
  through `riskGate`; `db.commit()` points are collapsed into the final
  write-back of the single mutated day-state row, which yields the same
  end-of-call database.
* The serialized `kill_reason` string ("label:iso|label:iso") is modelled as
  an association list `List (String × ℕ)`; `risk_gate` itself only ever
  writes well-formed entries, so parse/serialize round-trips exactly.
* `KillState` and `DecisionReason` are imported by the source from
  `app.models.enums`, which does not define them in the repository snapshot;
  they are reconstructed here from their uses in `risk_engine.py`
  (`KillState.NONE/SOFT/HARD` with string values producing the
  "soft_breach"/"hard_breach" markers, and the seven decision reasons).
-/

inductive KillState where
  | none
  | soft
  | hard
deriving DecidableEq, Repr

/-- The `.value` string of the `KillState` enum, used to build breach markers. -/
def KillState.value : KillState → String
  | .none => "none"
  | .soft => "soft"
  | .hard => "hard"

inductive DecisionReason where
  | tradingDisabled
  | dailyCapReached
  | perMarketCapReached
  | tooManyPositions
  | killHard
  | softThrottle
  | allowed
deriving DecidableEq, Repr

-- Module constants of risk_engine.py.
def SOFT_DRAWDOWN : ℚ := -2/100
def HARD_DRAWDOWN : ℚ := -3/100
def DAILY_SPEND_CAP : ℚ := 100
def PER_MARKET_SPEND_CAP : ℚ := 40
def MAX_OPEN_POSITIONS : ℕ := 8
def SOFT_MAX_POSITIONS : ℕ := 5
def BREACH_HYSTERESIS_SECONDS : ℕ := 60

/-- One row of the `day_state` table. -/
structure DayState where
  userId : ℕ
  dateLocal : ℕ
  startEquity : ℚ
  realizedPnlToday : ℚ
  dailySpend : ℚ
  killState : KillState
  killReason : List (String × ℕ)
  updatedAt : ℕ
deriving DecidableEq, Repr

/-- One row of the `pnl_ledger` table. -/
structure LedgerEntry where
  userId : ℕ
  marketTicker : String
  openedAt : ℕ
  closedAt : ℕ
  qty : ℚ
  entryPrice : ℚ
  exitPrice : ℚ
  realizedPnl : ℚ
deriving DecidableEq, Repr

/-- One row of the `positions` table.  The owner is reachable only through the
`trade` relationship in the schema; `_count_open_positions` never consults it. -/
structure PositionRow where
  ownerUserId : ℕ
deriving DecidableEq, Repr

structure Db where
  dayStates : List DayState
  ledger : List LedgerEntry
  positions : List PositionRow
deriving DecidableEq, Repr

/-- The settings consulted by `risk_gate` (`settings.TRADING_MODE`). -/
structure EngineConfig where
  tradingMode : String
deriving DecidableEq, Repr

structure EffectiveLimits where
  dailyRemaining : ℚ
  perMarketRemaining : ℚ
  maxPositions : ℕ
deriving DecidableEq, Repr

structure GateResult where
  allowNewOpen : Bool
  sizeMultiplier : ℚ
  effectiveLimits : Option EffectiveLimits
  reasonCode : DecisionReason
  killState : KillState
deriving DecidableEq, Repr

/-- Source `_local_day`: the fixed-reference-timezone calendar day key of a timestamp. -/
def localDay (t : ℕ) : ℕ := t / 86400

/-- Start-of-local-day timestamp used by both ledger aggregations. -/
def startOfDay (t : ℕ) : ℕ := 86400 * (t / 86400)

/-- Lookup in the parsed `kill_reason` label → timestamp map. -/
def lookupTs : List (String × ℕ) → String → Option ℕ
  | [], _ => Option.none
  | (k, v) :: rest, key => if k = key then some v else lookupTs rest key

/-- Python-dict style update of the `kill_reason` map: overwrite in place,
append when absent. -/
def upsertTs : List (String × ℕ) → String → ℕ → List (String × ℕ)
  | [], key, v => [(key, v)]
  | (k, w) :: rest, key, v =>
      if k = key then (key, v) :: rest else (k, w) :: upsertTs rest key v

/-- Source `_get_day_state`: fetch the (user, local day) row, lazily creating it with
the defaults used by the source (`start_equity = 10000`, zero P&L and spend,
`kill_state = NONE`, empty `kill_reason`). Returns the row and the database
(with the fresh row appended when it was missing). -/
def getDayState (db : Db) (userId : ℕ) (now : ℕ) : DayState × Db :=
  match db.dayStates.find? (fun d => d.userId == userId && d.dateLocal == localDay now) with
  | some d => (d, db)
  | Option.none =>
      let d : DayState :=
        { userId := userId, dateLocal := localDay now, startEquity := 10000,
          realizedPnlToday := 0, dailySpend := 0, killState := .none,
          killReason := [], updatedAt := now }
      (d, { db with dayStates := db.dayStates ++ [d] })

/-- Write the (single) mutated day-state row back to the database. -/
def putDayState (db : Db) (ds : DayState) : Db :=
  { db with
    dayStates := db.dayStates.map
      (fun d => if d.userId == ds.userId && d.dateLocal == ds.dateLocal then ds else d) }

/-- Source `_aggregate_realized`: sum of `realized_pnl` over the user's ledger rows
closed on or after the start of the current local day. -/
def aggregateRealized (db : Db) (userId : ℕ) (now : ℕ) : ℚ :=
  ((db.ledger.filter
      (fun e => e.userId == userId && decide (startOfDay now ≤ e.closedAt))).map
    (fun e => e.realizedPnl)).sum

/-- Source `_aggregate_spend`: sum of `entry_price * qty` over the user's ledger rows
opened on or after the start of the current local day, filtered to one market
when the ticker is non-empty (Python truthiness of `market_ticker`). -/
def aggregateSpend (db : Db) (userId : ℕ) (now : ℕ) (marketTicker : String) : ℚ :=
  let base := db.ledger.filter
    (fun e => e.userId == userId && decide (startOfDay now ≤ e.openedAt))
  let rows := if marketTicker ≠ "" then
      base.filter (fun e => e.marketTicker == marketTicker)
    else base
  (rows.map (fun e => e.entryPrice * e.qty)).sum

/-- Source `_count_open_positions`: per the source comment, the schema does not store
the user on positions, so this counts every row of the positions table. -/
def countOpenPositions (db : Db) (_userId : ℕ) : ℕ :=
  db.positions.length

/-- Banker's rounding (round half to even), the default `Decimal` rounding
mode used by `.quantize`. -/
def roundHalfEven (q : ℚ) : ℤ :=
  let f := ⌊q⌋
  let r := q - f
  if r < 1/2 then f
  else if 1/2 < r then f + 1
  else if f % 2 = 0 then f else f + 1

/-- Decimal `.quantize(Decimal("0.0001"))`: round to four decimal places, half to even. -/
def quantize4 (q : ℚ) : ℚ := (roundHalfEven (q * 10000) : ℚ) / 10000

/-- Breach-band classification of `risk_gate` (lines 137–142): drawdown ≤ HARD
threshold ⇒ HARD, else ≤ SOFT threshold ⇒ SOFT, else NONE. -/
def breachStateOf (realizedToday startEquity : ℚ) : KillState :=
  let drawdownPct := quantize4 (min realizedToday 0 / startEquity)
  if drawdownPct ≤ HARD_DRAWDOWN then .hard
  else if drawdownPct ≤ SOFT_DRAWDOWN then .soft
  else .none

/-- The `intended_action == "open"` branch of `risk_gate` (lines 156–174),
with the source's sequential mutation of `allow_new_open`/`reason` made
explicit: the daily/per-market cap checks write first, the position-count
check overwrites them, and the kill-state checks write last.  Returns
`(allow_new_open, size_multiplier, reason)`. -/
def openDecision (dailySpend perMarketSpend intendedSpend : ℚ)
    (openPositions maxPositionsAllowed : ℕ) (killState : KillState) :
    Bool × ℚ × DecisionReason :=
  let step1 : Bool × DecisionReason :=
    if DAILY_SPEND_CAP < dailySpend + intendedSpend then
      (false, .dailyCapReached)
    else if PER_MARKET_SPEND_CAP < perMarketSpend + intendedSpend then
      (false, .perMarketCapReached)
    else (true, .allowed)
  let step2 : Bool × DecisionReason :=
    if maxPositionsAllowed ≤ openPositions then
      (false, .tooManyPositions)
    else step1
  if killState = .hard then (false, (1 : ℚ), DecisionReason.killHard)
  else if killState = .soft ∧ step2.1 then
    (step2.1, (1/2 : ℚ), DecisionReason.softThrottle)
  else (step2.1, (1 : ℚ), step2.2)

/-- Source `_update_hysteresis`: record `now` against the breach marker and commit the
kill state to the observed level when the previously recorded timestamp for the
same marker is at least the hysteresis window in the past.  A `NONE`
observation returns the day state unchanged. -/
def updateHysteresis (ds : DayState) (breachLevel : KillState) (now : ℕ) : DayState :=
  if breachLevel = .none then ds
  else
    let marker := breachLevel.value ++ "_breach"
    let last := lookupTs ds.killReason marker
    let reason' := upsertTs ds.killReason marker now
    let state' :=
      match last with
      | some l => if BREACH_HYSTERESIS_SECONDS ≤ now - l then breachLevel else ds.killState
      | Option.none => ds.killState
    { ds with killReason := reason', killState := state' }

/-- Source `risk_gate`: returns the gate decision and the database after the call's
writes.  Mirrors `risk_engine.risk_gate` line by line (the trading-mode check
runs after the day-state fetch/creation; realized P&L refresh, breach
detection, hysteresis, spend aggregation and the `open` cap checks run only on
the live path; the `open` branch mutates `allow_new_open`/`reason` in source
order so a later check overwrites an earlier reason). -/
def riskGate (cfg : EngineConfig) (db : Db) (userId : ℕ) (marketTicker : String)
    (intendedAction : String) (intendedSpend : ℚ) (now : ℕ) : GateResult × Db :=
  let fetched := getDayState db userId now
  let ds0 := fetched.1
  let db1 := fetched.2
  if cfg.tradingMode ≠ "live" then
    ({ allowNewOpen := false, sizeMultiplier := 0, effectiveLimits := Option.none,
       reasonCode := .tradingDisabled, killState := .none }, db1)
  else
    let realizedToday := aggregateRealized db1 userId now
    let ds1 := { ds0 with realizedPnlToday := realizedToday }
    let breachState := breachStateOf realizedToday ds1.startEquity
    let ds2 := updateHysteresis ds1 breachState now
    let killState := ds2.killState
    let dailySpend := ds2.dailySpend
    let perMarketSpend := aggregateSpend db1 userId now marketTicker
    let maxPositionsAllowed :=
      if killState = .soft then SOFT_MAX_POSITIONS else MAX_OPEN_POSITIONS
    let decision :=
      if intendedAction = "open" then
        openDecision dailySpend perMarketSpend intendedSpend
          (countOpenPositions db1 userId) maxPositionsAllowed killState
      else (true, (1 : ℚ), DecisionReason.allowed)
    let ds3 := { ds2 with updatedAt := now }
    let db2 := putDayState db1 ds3
    ({ allowNewOpen := decision.1, sizeMultiplier := decision.2.1,
       effectiveLimits := some
         { dailyRemaining := DAILY_SPEND_CAP - dailySpend,
           perMarketRemaining := PER_MARKET_SPEND_CAP - perMarketSpend,
           maxPositions := maxPositionsAllowed },
       reasonCode := decision.2.2, killState := killState }, db2)

/-! ## C1: reason-code priority of the `open` decision -/

/-- Modelled from the spec's step-5 reference decision procedure for `open`
(claim C1): checks applied in the fixed priority order caps >
position-count > kill state, the reason reflecting the *first* applicable
violation. -/
def specOpenDecisionC1 (dailySpend perMarketSpend intendedSpend : ℚ)
    (openPositions maxPositionsAllowed : ℕ) (killState : KillState) :
    Bool × ℚ × DecisionReason :=
  if DAILY_SPEND_CAP < dailySpend + intendedSpend then
    (false, (1 : ℚ), DecisionReason.dailyCapReached)
  else if PER_MARKET_SPEND_CAP < perMarketSpend + intendedSpend then
    (false, (1 : ℚ), DecisionReason.perMarketCapReached)
  else if maxPositionsAllowed ≤ openPositions then
    (false, (1 : ℚ), DecisionReason.tooManyPositions)
  else if killState = .hard then (false, (1 : ℚ), DecisionReason.killHard)
  else if killState = .soft then (true, (1/2 : ℚ), DecisionReason.softThrottle)
  else (true, (1 : ℚ), DecisionReason.allowed)

/-- The reference decision procedure the code actually implements: the same
individual checks, but the reason reflects the *last* applicable violation,
i.e. the priority order is kill state > position-count > daily cap >
per-market cap.  The allow/deny verdict and the size multiplier agree with
the spec's procedure; only the reason priority is reversed. -/
def amendedOpenDecision (dailySpend perMarketSpend intendedSpend : ℚ)
    (openPositions maxPositionsAllowed : ℕ) (killState : KillState) :
    Bool × ℚ × DecisionReason :=
  if killState = .hard then (false, (1 : ℚ), DecisionReason.killHard)
  else if maxPositionsAllowed ≤ openPositions then
    (false, (1 : ℚ), DecisionReason.tooManyPositions)
  else if DAILY_SPEND_CAP < dailySpend + intendedSpend then
    (false, (1 : ℚ), DecisionReason.dailyCapReached)
  else if PER_MARKET_SPEND_CAP < perMarketSpend + intendedSpend then
    (false, (1 : ℚ), DecisionReason.perMarketCapReached)
  else if killState = .soft then (true, (1/2 : ℚ), DecisionReason.softThrottle)
  else (true, (1 : ℚ), DecisionReason.allowed)

/-- The pre-call day-state row `risk_gate` evaluates against. -/
def gateDayState (db : Db) (userId now : ℕ) : DayState :=
  (getDayState db userId now).1

/-- The kill state committed by an evaluation of `risk_gate` at `now`
(breach detection followed by the hysteresis update). -/
def gateKillState (db : Db) (userId now : ℕ) : KillState :=
  let ds0 := (getDayState db userId now).1
  let realized := aggregateRealized (getDayState db userId now).2 userId now
  (updateHysteresis { ds0 with realizedPnlToday := realized }
    (breachStateOf realized ds0.startEquity) now).killState

/-- The open-position cap applicable at an evaluation of `risk_gate`. -/
def gateMaxPositions (db : Db) (userId now : ℕ) : ℕ :=
  if gateKillState db userId now = .soft then SOFT_MAX_POSITIONS
  else MAX_OPEN_POSITIONS

-- Concrete database for the C1 counterexample: a day state with 95 already
-- spent today and eight open positions on the book.
def dbC1 : Db :=
  { dayStates := [{ userId := 0, dateLocal := 0, startEquity := 1000,
                    realizedPnlToday := 0, dailySpend := 95, killState := .none,
                    killReason := [], updatedAt := 0 }],
    ledger := [],
    positions := [⟨1⟩, ⟨1⟩, ⟨1⟩, ⟨1⟩, ⟨1⟩, ⟨1⟩, ⟨1⟩, ⟨1⟩] }

/-! ## C2 fixtures: three evaluations at t0, t0+30, t0+65 of a sustained HARD
drawdown (realized P&L −40 on start equity 1000, i.e. −4%) -/

def dbC2 : Db :=
  { dayStates := [{ userId := 0, dateLocal := 0, startEquity := 1000,
                    realizedPnlToday := 0, dailySpend := 0, killState := .none,
                    killReason := [], updatedAt := 0 }],
    ledger := [{ userId := 0, marketTicker := "TICK", openedAt := 1000,
                 closedAt := 1000, qty := 1, entryPrice := 10, exitPrice := 0,
                 realizedPnl := -40 }],
    positions := [] }

def dbC2a : Db := (riskGate ⟨"live"⟩ dbC2 0 "TICK" "open" 10 1000).2

def dbC2b : Db := (riskGate ⟨"live"⟩ dbC2a 0 "TICK" "open" 10 1030).2

/-! ## C3 fixtures: HARD committed at t=1070, then the P&L recovers into the
SOFT band and a confirmed SOFT breach downgrades the persisted state -/

def dbC3 : Db :=
  { dayStates := [{ userId := 0, dateLocal := 0, startEquity := 1000,
                    realizedPnlToday := 0, dailySpend := 0, killState := .none,
                    killReason := [], updatedAt := 0 }],
    ledger := [{ userId := 0, marketTicker := "TICK", openedAt := 1000,
                 closedAt := 1000, qty := 1, entryPrice := 10, exitPrice := 0,
                 realizedPnl := -35 }],
    positions := [] }

def dbC3a : Db := (riskGate ⟨"live"⟩ dbC3 0 "TICK" "open" 1 1000).2

def dbC3b : Db := (riskGate ⟨"live"⟩ dbC3a 0 "TICK" "open" 1 1070).2

-- A recovery fill (+10) closed at t=1100 brings realized P&L to −25 (−2.5%),
-- inside the SOFT band.
def dbC3c : Db :=
  { dbC3b with
    ledger := dbC3b.ledger ++ [{ userId := 0, marketTicker := "TICK",
                                 openedAt := 1100, closedAt := 1100, qty := 1,
                                 entryPrice := 10, exitPrice := 0,
                                 realizedPnl := 10 }] }

def dbC3d : Db := (riskGate ⟨"live"⟩ dbC3c 0 "TICK" "open" 1 1140).2

/-! ## C4 fixture: empty database, trading disabled -/

def dbC4 : Db := { dayStates := [], ledger := [], positions := [] }

/-! ## C6 fixtures: user 0 holds no positions; the book holds eight positions
of user 1 in one database and none in the other -/

def dbC6a : Db :=
  { dayStates := [{ userId := 0, dateLocal := 0, startEquity := 1000,
                    realizedPnlToday := 0, dailySpend := 0, killState := .none,
                    killReason := [], updatedAt := 0 }],
    ledger := [],
    positions := [⟨1⟩, ⟨1⟩, ⟨1⟩, ⟨1⟩, ⟨1⟩, ⟨1⟩, ⟨1⟩, ⟨1⟩] }

def dbC6b : Db := { dbC6a with positions := [] }

/-!
## risk_manager.py embedding

`RiskManager` state is modelled explicitly (`RMState`); the market table read
through `SessionLocal()` is an association list `MarketDb` from market id to
category.  `RiskCheck.message` carries the identity and payload of the
f-string message produced by the source as a constructor of `Msg` (the
numeric interpolation of the message text is not modelled); recommendations
likewise as constructors of `Rec`.  Python float arithmetic is modelled as
exact `ℚ`; a float division by zero raises `ZeroDivisionError` in the source
and is caught by the enclosing check's `except` branch, so each check takes
its error branch exactly when `portfolio_value = 0` is about to be divided
by.  The source's outer `try/except` in `assess_trade_risk` catches
exceptions raised by collaborators inside the body (logging, DB session
construction); that possibility is modelled by the `err` oracle flag: the
function is total by its type, mirroring that the `except Exception` clause
makes the Python function return a `TradeRiskAssessment` on every path.
`_reset_daily_metrics` is modelled by the effective daily P&L, which is
zeroed when the stored reset date is before today.
-/

inductive RiskLevel where
  | low
  | medium
  | high
  | critical
deriving DecidableEq, Repr

/-- Position of a level in `list(RiskLevel)`, as used by the `max(..., key=...)`
aggregation. -/
def rlIndex : RiskLevel → ℕ
  | .low => 0
  | .medium => 1
  | .high => 2
  | .critical => 3

/-- Python `max(a, b, key=lambda x: list(RiskLevel).index(x))`. -/
def maxRiskLevel (a b : RiskLevel) : RiskLevel :=
  if rlIndex a < rlIndex b then b else a

/-- Identity (and payload) of each message string produced by the checks. -/
inductive Msg where
  | emergencyStopActiveMsg
  | riskChecksDisabledMsg
  | confidenceBelowMin
  | dailyLossCritical
  | dailyLossExceeds
  | dailyLossOk
  | dailyLossCheckError
  | drawdownCriticalMsg
  | drawdownWarningMsg
  | drawdownOkMsg
  | positionSizeFarExceeds
  | positionSizeExceeds
  | positionSizeOk
  | positionSizeCheckError
  | marketNotFoundCategory (marketId : String)
  | categoryExceeds
  | categoryOk
  | categoryCheckError
  | marketNotFoundCorrelation (marketId : String)
  | correlationHigh
  | correlationOk
  | correlationCheckError
  | assessmentError
deriving DecidableEq, Repr

/-- Identity of each recommendation string of
`_generate_trade_recommendations`. -/
inductive Rec where
  | reduceSize
  | kellyVsActual
  | highPriority (m : Msg)
  | lowExpectedReturn
  | multipleRiskIssues
  | acceptable
  | fixRiskSystem
  | recsError
deriving DecidableEq, Repr

structure RiskCheck where
  passed : Bool
  level : RiskLevel
  message : Msg
deriving DecidableEq, Repr

structure TradeRiskAssessment where
  approved : Bool
  riskLevel : RiskLevel
  riskScore : ℚ
  positionSize : ℚ
  maxLoss : ℚ
  riskChecks : List RiskCheck
  recommendations : List Rec
deriving DecidableEq, Repr

/-- One entry of `settings.RISK_PROFILES`. -/
structure Profile where
  maxPositionSizePercent : ℚ
  kellyFraction : ℚ
  minConfidenceThreshold : ℚ
deriving DecidableEq, Repr

/-- The fields of `settings.DEFAULT_RISK_CONFIG` consulted by the checks. -/
structure RiskConfig where
  maxPositionSizePercent : ℚ
  maxCategoryExposurePercent : ℚ
  dailyLossLimitPercent : ℚ
  kellyFraction : ℚ
  maxCorrelation : ℚ
deriving DecidableEq, Repr

/-- Source `settings.RISK_PROFILES` (config.py lines 60–76). -/
def riskProfilesSettings : List (String × Profile) :=
  [("conservative", { maxPositionSizePercent := 2, kellyFraction := 1/10,
                      minConfidenceThreshold := 75 }),
   ("moderate", { maxPositionSizePercent := 5, kellyFraction := 1/4,
                  minConfidenceThreshold := 60 }),
   ("aggressive", { maxPositionSizePercent := 10, kellyFraction := 1/2,
                    minConfidenceThreshold := 50 })]

/-- Source `settings.DEFAULT_RISK_CONFIG` (config.py lines 78–87), the fields used. -/
def defaultRiskConfig : RiskConfig :=
  { maxPositionSizePercent := 5, maxCategoryExposurePercent := 20,
    dailyLossLimitPercent := 2, kellyFraction := 1/4, maxCorrelation := 7/10 }

/-- Association-list lookup (Python `dict.get`). -/
def lookupAssoc {α : Type} : List (String × α) → String → Option α
  | [], _ => Option.none
  | (k, v) :: rest, key => if k = key then some v else lookupAssoc rest key

/-- The mutable state of a `RiskManager` instance (the fields read by the
assessment paths). -/
structure RMState where
  config : RiskConfig
  userProfiles : List (String × Profile)
  dailyPnl : ℚ
  lastResetDate : ℕ
  today : ℕ
  portfolioValue : ℚ
  currentDrawdown : ℚ
  categoryExposures : List (String × ℚ)
  riskChecksEnabled : Bool
  emergencyStopActive : Bool
deriving Repr

/-- The market table, keyed by `market_id`, valued by `category`. -/
def MarketDb : Type := List (String × String)

/-- The state of a freshly constructed `RiskManager` (no positions loaded,
default portfolio value 10000, checks enabled, emergency stop inactive). -/
def initialRMState : RMState :=
  { config := defaultRiskConfig, userProfiles := riskProfilesSettings,
    dailyPnl := 0, lastResetDate := 0, today := 0, portfolioValue := 10000,
    currentDrawdown := 0, categoryExposures := [], riskChecksEnabled := true,
    emergencyStopActive := false }

/-- Source `set_emergency_stop`. -/
def setEmergencyStop (s : RMState) (active : Bool) (_reason : String) :
    RMState :=
  { s with emergencyStopActive := active }

/-- Daily P&L after `_reset_daily_metrics` (zeroed on a new day). -/
def effectiveDailyPnl (s : RMState) : ℚ :=
  if s.lastResetDate < s.today then 0 else s.dailyPnl

/-- The kelly fraction of the given profile
(`self.user_profiles.get(profile, {}).get('kelly_fraction', 0.25)`). -/
def kellyFractionOf (s : RMState) (profile : String) : ℚ :=
  match lookupAssoc s.userProfiles profile with
  | some p => p.kellyFraction
  | Option.none => 1/4

/-- Source `_calculate_kelly_position_size`. -/
def calculateKellyPositionSize (s : RMState) (expectedReturn winProbability : ℚ)
    (userRiskProfile : String) : ℚ :=
  let kellyFraction := kellyFractionOf s userRiskProfile
  if winProbability ≤ 0 ∨ 1 ≤ winProbability then 0
  else
    let winLossRat := if expectedReturn ≠ 0 then |expectedReturn| / (5/100)
      else 1
    let kellyPercentage := max 0
      (winProbability - (1 - winProbability) / winLossRat)
    min (kellyPercentage * kellyFraction * 100) s.config.maxPositionSizePercent

/-- Source `_check_position_size_risk`. -/
def checkPositionSizeRisk (s : RMState) (tradeSize : ℚ) : RiskCheck :=
  if s.portfolioValue = 0 then
    { passed := false, level := .high, message := .positionSizeCheckError }
  else
    let positionPercentage := tradeSize / s.portfolioValue * 100
    let maxPositionSize := s.config.maxPositionSizePercent
    if maxPositionSize * (3/2) < positionPercentage then
      { passed := false, level := .critical, message := .positionSizeFarExceeds }
    else if maxPositionSize < positionPercentage then
      { passed := false, level := .high, message := .positionSizeExceeds }
    else
      { passed := true, level := .low, message := .positionSizeOk }

/-- Source `_check_category_exposure_risk`. -/
def checkCategoryExposureRisk (s : RMState) (mdb : MarketDb)
    (marketId : String) (tradeSize : ℚ) : RiskCheck :=
  match lookupAssoc mdb marketId with
  | Option.none =>
      { passed := true, level := .low,
        message := .marketNotFoundCategory marketId }
  | some category =>
      if s.portfolioValue = 0 then
        { passed := false, level := .high, message := .categoryCheckError }
      else
        let currentExposure :=
          (lookupAssoc s.categoryExposures category).getD 0
        let newExposure := currentExposure + tradeSize
        let exposurePercentage := newExposure / s.portfolioValue * 100
        if s.config.maxCategoryExposurePercent < exposurePercentage then
          { passed := false, level := .high, message := .categoryExceeds }
        else
          { passed := true, level := .low, message := .categoryOk }

/-- Source `_check_daily_loss_limit`. -/
def checkDailyLossLimit (s : RMState) : RiskCheck :=
  let pnl := effectiveDailyPnl s
  if pnl < 0 ∧ s.portfolioValue = 0 then
    { passed := false, level := .medium, message := .dailyLossCheckError }
  else
    let dailyLossPercentage :=
      if pnl < 0 then |pnl| / s.portfolioValue * 100 else 0
    let dailyLossLimit := s.config.dailyLossLimitPercent
    if dailyLossLimit * (3/2) < dailyLossPercentage then
      { passed := false, level := .critical, message := .dailyLossCritical }
    else if dailyLossLimit < dailyLossPercentage then
      { passed := false, level := .high, message := .dailyLossExceeds }
    else
      { passed := true, level := .low, message := .dailyLossOk }

/-- The fixed category-similarity map of `_check_correlation_risk`. -/
def similarCategories : List (String × List String) :=
  [("politics", ["government"]), ("finance", ["economy", "banking"]),
   ("sports", ["entertainment"]), ("technology", ["innovation"])]

/-- Source `_check_correlation_risk`. -/
def checkCorrelationRisk (s : RMState) (mdb : MarketDb) (marketId : String)
    (tradeSize : ℚ) : RiskCheck :=
  match lookupAssoc mdb marketId with
  | Option.none =>
      { passed := true, level := .low,
        message := .marketNotFoundCorrelation marketId }
  | some newCategory =>
      if s.portfolioValue = 0 then
        { passed := false, level := .medium, message := .correlationCheckError }
      else
        let totalSimilarExposure :=
          (similarCategories.map (fun p =>
            if newCategory = p.1 ∨ newCategory ∈ p.2 then
              (lookupAssoc s.categoryExposures p.1).getD 0 +
                (p.2.map (fun c => (lookupAssoc s.categoryExposures c).getD 0)).sum
            else 0)).sum + tradeSize
        let correlationRat := totalSimilarExposure / s.portfolioValue
        if s.config.maxCorrelation < correlationRat then
          { passed := false, level := .medium, message := .correlationHigh }
        else
          { passed := true, level := .low, message := .correlationOk }

/-- Source `_check_drawdown_limit` (warning at 10%, critical at 15%; the warning tier
passes). -/
def checkDrawdownLimit (s : RMState) : RiskCheck :=
  if (15 : ℚ) < s.currentDrawdown then
    { passed := false, level := .critical, message := .drawdownCriticalMsg }
  else if (10 : ℚ) < s.currentDrawdown then
    { passed := true, level := .high, message := .drawdownWarningMsg }
  else
    { passed := true, level := .low, message := .drawdownOkMsg }

/-- Source `_calculate_trade_risk_score` (base 30, position-size contribution capped
at 40, 30/20/10 per failed CRITICAL/HIGH/MEDIUM check, ±15/−10 for expected
return, clamped to [0, 100]; 50 on a zero portfolio value, the `except`
branch). -/
def calculateTradeRiskScore (s : RMState) (riskChecks : List RiskCheck)
    (tradeSize expectedReturn : ℚ) : ℚ :=
  if s.portfolioValue = 0 then 50
  else
    let base := 30 + min (tradeSize / s.portfolioValue * 100 * 2) 40
    let base := base + (riskChecks.map (fun c =>
      if c.passed then 0
      else match c.level with
        | .critical => (30 : ℚ)
        | .high => 20
        | .medium => 10
        | .low => 0)).sum
    let base := if expectedReturn < 0 then base + 15
      else if (1/10 : ℚ) < expectedReturn then base - 10
      else base
    min (max base 0) 100

/-- Source `_generate_trade_recommendations` (`recsError` is the `except` branch,
reached when the percentage computation divides by a zero portfolio value). -/
def generateTradeRecommendations (s : RMState) (riskChecks : List RiskCheck)
    (tradeSize kellyRecommendedSize expectedReturn : ℚ) : List Rec :=
  if s.portfolioValue = 0 then [.recsError]
  else
    let sizePercentage := tradeSize / s.portfolioValue * 100
    let r1 : List Rec := if (5 : ℚ) < sizePercentage then [.reduceSize] else []
    let r2 : List Rec :=
      if 0 < kellyRecommendedSize ∧ kellyRecommendedSize < sizePercentage then
        [.kellyVsActual]
      else []
    let failedChecks := riskChecks.filter (fun c => !c.passed)
    let r3 := (failedChecks.filter (fun c => c.level == RiskLevel.high)).map
      (fun c => Rec.highPriority c.message)
    let r4 : List Rec := if expectedReturn < 1/20 then [.lowExpectedReturn]
      else []
    let r5 : List Rec := if 2 < failedChecks.length then [.multipleRiskIssues]
      else []
    let all := r1 ++ r2 ++ r3 ++ r4 ++ r5
    if all.isEmpty then [.acceptable] else all

/-- The fail-closed assessment returned by the `except` branch of
`assess_trade_risk`. -/
def failClosedAssessment : TradeRiskAssessment :=
  { approved := false, riskLevel := .critical, riskScore := 100,
    positionSize := 0, maxLoss := 0,
    riskChecks := [{ passed := false, level := .critical,
                     message := .assessmentError }],
    recommendations := [.fixRiskSystem] }

/-- Source `assess_trade_risk`.  `err` is the oracle for an exception raised by a
collaborator inside the `try` body; when it is set the `except Exception`
branch returns `failClosedAssessment`. -/
def assessTradeRisk (err : Bool) (s : RMState) (mdb : MarketDb)
    (marketId side : String) (count : ℕ) (price expectedReturn
    winProbability : ℚ) (userRiskProfile : String) : TradeRiskAssessment :=
  if err then failClosedAssessment
  else
    let tradeSize := (count : ℚ) * price
    let dailyLossCheck := checkDailyLossLimit s
    let drawdownCheck := checkDrawdownLimit s
    let positionSizeCheck := checkPositionSizeRisk s tradeSize
    let categoryRisk := checkCategoryExposureRisk s mdb marketId tradeSize
    let correlationRisk := checkCorrelationRisk s mdb marketId tradeSize
    let riskChecks := [dailyLossCheck, drawdownCheck, positionSizeCheck,
      categoryRisk, correlationRisk]
    let criticalIssues : List Msg :=
      (if s.emergencyStopActive then [Msg.emergencyStopActiveMsg] else []) ++
      (if !s.riskChecksEnabled then [Msg.riskChecksDisabledMsg] else []) ++
      (if dailyLossCheck.passed = false ∧ dailyLossCheck.level = .critical then
        [dailyLossCheck.message] else []) ++
      (if drawdownCheck.passed = false ∧ drawdownCheck.level = .critical then
        [drawdownCheck.message] else [])
    let overallRiskLevel :=
      [positionSizeCheck, categoryRisk, correlationRisk].foldl
        (fun acc c => if c.passed then acc else maxRiskLevel acc c.level)
        RiskLevel.low
    let kellyRecommendedSize :=
      calculateKellyPositionSize s expectedReturn winProbability
        userRiskProfile
    let approved0 := criticalIssues.isEmpty && riskChecks.all (fun c => c.passed)
    let approved :=
      match lookupAssoc s.userProfiles userRiskProfile with
      | some p =>
          if winProbability * 100 < p.minConfidenceThreshold then false
          else approved0
      | Option.none => approved0
    let riskScore := calculateTradeRiskScore s riskChecks tradeSize
      expectedReturn
    let maxLoss := if side = "yes" then tradeSize
      else tradeSize * (1 - price)
    let recommendations := generateTradeRecommendations s riskChecks tradeSize
      kellyRecommendedSize expectedReturn
    { approved := approved, riskLevel := overallRiskLevel,
      riskScore := riskScore, positionSize := tradeSize, maxLoss := maxLoss,
      riskChecks := riskChecks, recommendations := recommendations }

/-- Modelled from claim C7's reference formula: the Kelly percentage floored
at 0, multiplied by the profile's kelly fraction and 100, capped at *that
profile's* max position size percentage. -/
def kellySizeClaimC7 (p : Profile) (expectedReturn winProbability : ℚ) : ℚ :=
  let winLossRat := if expectedReturn = 0 then 1 else |expectedReturn| / (5/100)
  min (max 0 (winProbability - (1 - winProbability) / winLossRat) *
        p.kellyFraction * 100)
    p.maxPositionSizePercent

/-- The formula `_calculate_kelly_position_size` actually implements, stated
in the claim's style: same Kelly core, but outside the open interval
0 < w < 1 the result is 0, and the cap is the manager's *default risk
config* max position size percentage, not the profile's. -/
def kellySizeAmendedRef (s : RMState) (expectedReturn winProbability : ℚ)
    (userRiskProfile : String) : ℚ :=
  let winLossRat := if expectedReturn = 0 then 1 else |expectedReturn| / (5/100)
  if 0 < winProbability ∧ winProbability < 1 then
    min (max 0 (winProbability - (1 - winProbability) / winLossRat) *
          kellyFractionOf s userRiskProfile * 100)
      s.config.maxPositionSizePercent
  else 0

/-- Literal database with a committed HARD kill state on the day-state row,
used to witness the no-clear theorem. -/
def dbC3w : Db :=
  { dayStates := [{ userId := 0, dateLocal := 0, startEquity := 1000,
                    realizedPnlToday := -35, dailySpend := 0,
                    killState := KillState.hard,
                    killReason := [("hard_breach", 1070)],
                    updatedAt := 1070 }],
    ledger := [], positions := [] }

/-- Fresh day state used to witness the hysteresis timing theorem. -/
def dsC2w : DayState :=
  { userId := 0, dateLocal := 0, startEquity := 1000, realizedPnlToday := 0,
    dailySpend := 0, killState := .none, killReason := [], updatedAt := 0 }

/-! ## Helper lemmas -/

theorem getDayState_key (db : Db) (userId now : ℕ) :
    (getDayState db userId now).1.userId = userId ∧
    (getDayState db userId now).1.dateLocal = localDay now := by
  unfold getDayState
  cases hfind : db.dayStates.find?
      (fun d => d.userId == userId && d.dateLocal == localDay now) with
  | none => simp
  | some d =>
      have hd := List.find?_some hfind
      simp only [Bool.and_eq_true, beq_iff_eq] at hd
      simp [hd.1, hd.2]

theorem lookupTs_upsertTs_self (m : List (String × ℕ)) (k : String) (v : ℕ) :
    lookupTs (upsertTs m k v) k = some v := by
  induction m with
  | nil => simp [upsertTs, lookupTs]
  | cons hd tl ih =>
      obtain ⟨k', v'⟩ := hd
      by_cases h : k' = k
      · simp [upsertTs, lookupTs, h]
      · simp [upsertTs, lookupTs, h, ih]

theorem updateHysteresis_userId (ds : DayState) (b : KillState) (n : ℕ) :
    (updateHysteresis ds b n).userId = ds.userId := by
  unfold updateHysteresis; split <;> rfl

theorem updateHysteresis_dateLocal (ds : DayState) (b : KillState) (n : ℕ) :
    (updateHysteresis ds b n).dateLocal = ds.dateLocal := by
  unfold updateHysteresis; split <;> rfl

theorem updateHysteresis_dailySpend (ds : DayState) (b : KillState) (n : ℕ) :
    (updateHysteresis ds b n).dailySpend = ds.dailySpend := by
  unfold updateHysteresis; split <;> rfl

theorem updateHysteresis_killState_ne_none (ds : DayState) (b : KillState)
    (n : ℕ) (h : ds.killState ≠ KillState.none) :
    (updateHysteresis ds b n).killState ≠ KillState.none := by
  unfold updateHysteresis
  split
  · exact h
  · next hb =>
      simp only
      split
      · next l _ =>
          split
          · exact hb
          · exact h
      · exact h

theorem openDecision_eq_amended (d p s : ℚ) (pos mx : ℕ) (k : KillState) :
    openDecision d p s pos mx k = amendedOpenDecision d p s pos mx k := by
  unfold openDecision amendedOpenDecision
  rcases k <;>
    by_cases h1 : mx ≤ pos <;>
      by_cases h2 : DAILY_SPEND_CAP < d + s <;>
        by_cases h3 : PER_MARKET_SPEND_CAP < p + s <;>
          simp [h1, h2, h3]

/-! ## C1 -/

/-- C1 (counterexample): at a concrete evaluation where both the daily spend
cap is exceeded (95 + 10 > 100) and the position cap is hit (8 ≥ 8),
`risk_gate` reports `TOO_MANY_POSITIONS`, not `DAILY_CAP_REACHED`: the reason
code reflects the *last* applicable violation, so the claimed tie-break
"caps > position-count > kill state" — and in particular the claim that a
daily-cap violation always yields `DAILY_CAP_REACHED` — is false. -/
theorem riskGate_daily_cap_priority_cex :
    DAILY_SPEND_CAP < (gateDayState dbC1 0 1000).dailySpend + 10 ∧
    (riskGate ⟨"live"⟩ dbC1 0 "TICK" "open" 10 1000).1.allowNewOpen = false ∧
    (riskGate ⟨"live"⟩ dbC1 0 "TICK" "open" 10 1000).1.reasonCode =
      DecisionReason.tooManyPositions ∧
    (riskGate ⟨"live"⟩ dbC1 0 "TICK" "open" 10 1000).1.reasonCode ≠
      DecisionReason.dailyCapReached := by
  have hr : (riskGate ⟨"live"⟩ dbC1 0 "TICK" "open" 10 1000).1.reasonCode =
      DecisionReason.tooManyPositions := by
    norm_num [riskGate, getDayState, dbC1, aggregateRealized, aggregateSpend,
      countOpenPositions, breachStateOf, quantize4, roundHalfEven,
      updateHysteresis, openDecision, localDay, startOfDay, lookupTs, upsertTs,
      putDayState, DAILY_SPEND_CAP, PER_MARKET_SPEND_CAP, MAX_OPEN_POSITIONS,
      SOFT_MAX_POSITIONS, HARD_DRAWDOWN, SOFT_DRAWDOWN, List.find?]
    decide
  have ha : (riskGate ⟨"live"⟩ dbC1 0 "TICK" "open" 10 1000).1.allowNewOpen =
      false := by
    norm_num [riskGate, getDayState, dbC1, aggregateRealized, aggregateSpend,
      countOpenPositions, breachStateOf, quantize4, roundHalfEven,
      updateHysteresis, openDecision, localDay, startOfDay, lookupTs, upsertTs,
      putDayState, DAILY_SPEND_CAP, PER_MARKET_SPEND_CAP, MAX_OPEN_POSITIONS,
      SOFT_MAX_POSITIONS, HARD_DRAWDOWN, SOFT_DRAWDOWN, List.find?]
    decide
  refine ⟨?_, ha, hr, ?_⟩
  · norm_num [gateDayState, getDayState, dbC1, localDay, List.find?,
      DAILY_SPEND_CAP]
  · rw [hr]; decide

/-- C1 (amended): for every live-mode `open` evaluation, `risk_gate`'s
`(allow_new_open, size_multiplier, reason_code)` equals the reference decision
procedure with the checks prioritised in the order kill state >
position-count > daily cap > per-market cap (last applicable violation wins);
the allow/deny verdict and size multiplier agree with the spec's procedure,
only the reason-priority order is the reverse of the claimed one. -/
theorem riskGate_open_reason_priority_amended (cfg : EngineConfig) (db : Db)
    (userId : ℕ) (ticker : String) (spend : ℚ) (now : ℕ)
    (hLive : cfg.tradingMode = "live") :
    ((riskGate cfg db userId ticker "open" spend now).1.allowNewOpen,
      (riskGate cfg db userId ticker "open" spend now).1.sizeMultiplier,
      (riskGate cfg db userId ticker "open" spend now).1.reasonCode) =
      amendedOpenDecision (gateDayState db userId now).dailySpend
        (aggregateSpend (getDayState db userId now).2 userId now ticker) spend
        (countOpenPositions (getDayState db userId now).2 userId)
        (gateMaxPositions db userId now) (gateKillState db userId now) := by
  simp [riskGate, hLive, gateDayState, gateKillState, gateMaxPositions,
    openDecision_eq_amended, updateHysteresis_dailySpend]

/-- Witness for the amended C1 theorem at a concrete input. -/
theorem riskGate_open_reason_priority_amended_witness :
    ((riskGate ⟨"live"⟩ dbC1 0 "TICK" "open" 10 1000).1.allowNewOpen,
      (riskGate ⟨"live"⟩ dbC1 0 "TICK" "open" 10 1000).1.sizeMultiplier,
      (riskGate ⟨"live"⟩ dbC1 0 "TICK" "open" 10 1000).1.reasonCode) =
      amendedOpenDecision (gateDayState dbC1 0 1000).dailySpend
        (aggregateSpend (getDayState dbC1 0 1000).2 0 1000 "TICK") 10
        (countOpenPositions (getDayState dbC1 0 1000).2 0)
        (gateMaxPositions dbC1 0 1000) (gateKillState dbC1 0 1000) :=
  riskGate_open_reason_priority_amended ⟨"live"⟩ dbC1 0 "TICK" 10 1000 rfl

/-! ## C2 -/

/-- C2 (counterexample): a HARD drawdown observed at every one of three
evaluations at t0 = 1000, t0+30 and t0+65 of an uninterrupted streak does
*not* yield `kill_state = HARD` at t0+65, because `_update_hysteresis`
overwrites the marker timestamp on every observation (it stores the most
recent previous observation, not the first of the streak), so the 35-second
gap between the second and third observations never reaches the 60-second
window. -/
theorem hysteresis_first_seen_cex :
    breachStateOf (aggregateRealized dbC2 0 1000) 1000 = KillState.hard ∧
    (riskGate ⟨"live"⟩ dbC2 0 "TICK" "open" 10 1000).1.killState =
      KillState.none ∧
    1000 + BREACH_HYSTERESIS_SECONDS ≤ 1065 ∧
    (riskGate ⟨"live"⟩ dbC2b 0 "TICK" "open" 10 1065).1.killState =
      KillState.none ∧
    (riskGate ⟨"live"⟩ dbC2b 0 "TICK" "open" 10 1065).1.killState ≠
      KillState.hard := by
  have ha : dbC2a =
      { dayStates := [{ userId := 0, dateLocal := 0, startEquity := 1000,
                        realizedPnlToday := -40, dailySpend := 0,
                        killState := KillState.none,
                        killReason := [("hard_breach", 1000)],
                        updatedAt := 1000 }],
        ledger := dbC2.ledger, positions := [] } := by
    norm_num [dbC2a, dbC2, riskGate, getDayState, aggregateRealized,
      aggregateSpend, countOpenPositions, breachStateOf, quantize4,
      roundHalfEven, updateHysteresis, openDecision, localDay, startOfDay,
      lookupTs, upsertTs, putDayState, KillState.value, DAILY_SPEND_CAP,
      PER_MARKET_SPEND_CAP, MAX_OPEN_POSITIONS, SOFT_MAX_POSITIONS,
      HARD_DRAWDOWN, SOFT_DRAWDOWN, BREACH_HYSTERESIS_SECONDS, List.find?]
    decide
  have hb : dbC2b =
      { dayStates := [{ userId := 0, dateLocal := 0, startEquity := 1000,
                        realizedPnlToday := -40, dailySpend := 0,
                        killState := KillState.none,
                        killReason := [("hard_breach", 1030)],
                        updatedAt := 1030 }],
        ledger := dbC2.ledger, positions := [] } := by
    rw [dbC2b, ha]
    norm_num [dbC2, riskGate, getDayState, aggregateRealized,
      aggregateSpend, countOpenPositions, breachStateOf, quantize4,
      roundHalfEven, updateHysteresis, openDecision, localDay, startOfDay,
      lookupTs, upsertTs, putDayState, KillState.value, DAILY_SPEND_CAP,
      PER_MARKET_SPEND_CAP, MAX_OPEN_POSITIONS, SOFT_MAX_POSITIONS,
      HARD_DRAWDOWN, SOFT_DRAWDOWN, BREACH_HYSTERESIS_SECONDS, List.find?]
    decide
  have h3 : (riskGate ⟨"live"⟩ dbC2b 0 "TICK" "open" 10 1065).1.killState =
      KillState.none := by
    rw [hb]
    norm_num [dbC2, riskGate, getDayState, aggregateRealized,
      aggregateSpend, countOpenPositions, breachStateOf, quantize4,
      roundHalfEven, updateHysteresis, openDecision, localDay, startOfDay,
      lookupTs, upsertTs, putDayState, KillState.value, DAILY_SPEND_CAP,
      PER_MARKET_SPEND_CAP, MAX_OPEN_POSITIONS, SOFT_MAX_POSITIONS,
      HARD_DRAWDOWN, SOFT_DRAWDOWN, BREACH_HYSTERESIS_SECONDS, List.find?]
    decide
  refine ⟨?_, ?_, by norm_num [BREACH_HYSTERESIS_SECONDS], h3, by rw [h3]; decide⟩
  · norm_num [breachStateOf, aggregateRealized, dbC2, quantize4, roundHalfEven,
      localDay, startOfDay, HARD_DRAWDOWN, SOFT_DRAWDOWN]
  · norm_num [riskGate, getDayState, dbC2, aggregateRealized, aggregateSpend,
      countOpenPositions, breachStateOf, quantize4, roundHalfEven,
      updateHysteresis, openDecision, localDay, startOfDay, lookupTs, upsertTs,
      putDayState, KillState.value, DAILY_SPEND_CAP, PER_MARKET_SPEND_CAP,
      MAX_OPEN_POSITIONS, SOFT_MAX_POSITIONS, HARD_DRAWDOWN, SOFT_DRAWDOWN,
      BREACH_HYSTERESIS_SECONDS, List.find?]
    decide

/-- C2 (amended): per breach marker, `_update_hysteresis` stores the timestamp
of the *previous* observation (overwritten on every call), and commits the
kill state to the observed level exactly when two *consecutive* observations
of the same level are at least the 60-second window apart.  Starting from a
day state with no marker recorded, the first observation never commits; a
second observation commits iff its gap from the first is ≥ the window. -/
theorem updateHysteresis_consecutive_gap (ds : DayState) (level : KillState)
    (t0 t1 : ℕ) (hlev : level ≠ KillState.none)
    (hfresh : lookupTs ds.killReason (level.value ++ "_breach") = Option.none) :
    (updateHysteresis ds level t0).killState = ds.killState ∧
    (BREACH_HYSTERESIS_SECONDS ≤ t1 - t0 →
      (updateHysteresis (updateHysteresis ds level t0) level t1).killState =
        level) ∧
    (t1 - t0 < BREACH_HYSTERESIS_SECONDS →
      (updateHysteresis (updateHysteresis ds level t0) level t1).killState =
        ds.killState) := by
  have h1 : updateHysteresis ds level t0 =
      { ds with
        killReason := upsertTs ds.killReason (level.value ++ "_breach") t0 } := by
    unfold updateHysteresis
    rw [if_neg hlev]
    simp [hfresh]
  refine ⟨by rw [h1], ?_, ?_⟩
  · intro hge
    rw [h1]
    unfold updateHysteresis
    rw [if_neg hlev]
    simp [lookupTs_upsertTs_self, hge]
  · intro hlt
    rw [h1]
    unfold updateHysteresis
    rw [if_neg hlev]
    simp [lookupTs_upsertTs_self, Nat.not_le.mpr hlt]

/-- Witness for the amended C2 theorem: a fresh streak observed at t = 0 and
t = 70 commits at the second observation and not at the first. -/
theorem updateHysteresis_consecutive_gap_witness :
    (updateHysteresis dsC2w KillState.hard 0).killState = dsC2w.killState ∧
    (updateHysteresis (updateHysteresis dsC2w KillState.hard 0)
        KillState.hard 70).killState = KillState.hard :=
  ⟨(updateHysteresis_consecutive_gap dsC2w KillState.hard 0 70 (by decide)
      rfl).1,
   (updateHysteresis_consecutive_gap dsC2w KillState.hard 0 70 (by decide)
      rfl).2.1 (by decide)⟩

/-! ## C3 -/

/-- C3 (counterexample): within one (user, local day), after HARD is committed
(evaluation at t = 1070 returns `kill_state = HARD`), a recovery of the
realized P&L into the SOFT band followed by two SOFT observations ≥ 60 s
apart re-commits the persisted state to SOFT: the evaluation at t = 1210
returns `kill_state = SOFT`, so the kill state is *not* monotonic
non-decreasing — HARD can be downgraded to SOFT intra-day. -/
theorem killState_monotonic_cex :
    localDay 1070 = localDay 1210 ∧
    (riskGate ⟨"live"⟩ dbC3a 0 "TICK" "open" 1 1070).1.killState =
      KillState.hard ∧
    (riskGate ⟨"live"⟩ dbC3d 0 "TICK" "open" 1 1210).1.killState =
      KillState.soft := by
  have ha : dbC3a =
      { dayStates := [{ userId := 0, dateLocal := 0, startEquity := 1000,
                        realizedPnlToday := -35, dailySpend := 0,
                        killState := KillState.none,
                        killReason := [("hard_breach", 1000)],
                        updatedAt := 1000 }],
        ledger := dbC3.ledger, positions := [] } := by
    norm_num [dbC3a, dbC3, riskGate, getDayState, aggregateRealized,
      aggregateSpend, countOpenPositions, breachStateOf, quantize4,
      roundHalfEven, updateHysteresis, openDecision, localDay, startOfDay,
      lookupTs, upsertTs, putDayState, KillState.value, DAILY_SPEND_CAP,
      PER_MARKET_SPEND_CAP, MAX_OPEN_POSITIONS, SOFT_MAX_POSITIONS,
      HARD_DRAWDOWN, SOFT_DRAWDOWN, BREACH_HYSTERESIS_SECONDS, List.find?]
    decide
  have h2 : (riskGate ⟨"live"⟩ dbC3a 0 "TICK" "open" 1 1070).1.killState =
      KillState.hard := by
    rw [ha]
    norm_num [dbC3, riskGate, getDayState, aggregateRealized,
      aggregateSpend, countOpenPositions, breachStateOf, quantize4,
      roundHalfEven, updateHysteresis, openDecision, localDay, startOfDay,
      lookupTs, upsertTs, putDayState, KillState.value, DAILY_SPEND_CAP,
      PER_MARKET_SPEND_CAP, MAX_OPEN_POSITIONS, SOFT_MAX_POSITIONS,
      HARD_DRAWDOWN, SOFT_DRAWDOWN, BREACH_HYSTERESIS_SECONDS, List.find?]
    decide
  have hb : dbC3b =
      { dayStates := [{ userId := 0, dateLocal := 0, startEquity := 1000,
                        realizedPnlToday := -35, dailySpend := 0,
                        killState := KillState.hard,
                        killReason := [("hard_breach", 1070)],
                        updatedAt := 1070 }],
        ledger := dbC3.ledger, positions := [] } := by
    rw [dbC3b, ha]
    norm_num [dbC3, riskGate, getDayState, aggregateRealized,
      aggregateSpend, countOpenPositions, breachStateOf, quantize4,
      roundHalfEven, updateHysteresis, openDecision, localDay, startOfDay,
      lookupTs, upsertTs, putDayState, KillState.value, DAILY_SPEND_CAP,
      PER_MARKET_SPEND_CAP, MAX_OPEN_POSITIONS, SOFT_MAX_POSITIONS,
      HARD_DRAWDOWN, SOFT_DRAWDOWN, BREACH_HYSTERESIS_SECONDS, List.find?]
    decide
  have hc : dbC3c =
      { dayStates := [{ userId := 0, dateLocal := 0, startEquity := 1000,
                        realizedPnlToday := -35, dailySpend := 0,
                        killState := KillState.hard,
                        killReason := [("hard_breach", 1070)],
                        updatedAt := 1070 }],
        ledger := dbC3.ledger ++ [{ userId := 0, marketTicker := "TICK",
                                    openedAt := 1100, closedAt := 1100,
                                    qty := 1, entryPrice := 10, exitPrice := 0,
                                    realizedPnl := 10 }],
        positions := [] } := by
    rw [dbC3c, hb]
  have hd : dbC3d =
      { dayStates := [{ userId := 0, dateLocal := 0, startEquity := 1000,
                        realizedPnlToday := -25, dailySpend := 0,
                        killState := KillState.hard,
                        killReason := [("hard_breach", 1070),
                                       ("soft_breach", 1140)],
                        updatedAt := 1140 }],
        ledger := dbC3.ledger ++ [{ userId := 0, marketTicker := "TICK",
                                    openedAt := 1100, closedAt := 1100,
                                    qty := 1, entryPrice := 10, exitPrice := 0,
                                    realizedPnl := 10 }],
        positions := [] } := by
    rw [dbC3d, hc]
    norm_num [dbC3, riskGate, getDayState,
      aggregateRealized, aggregateSpend, countOpenPositions, breachStateOf,
      quantize4, roundHalfEven, updateHysteresis, openDecision, localDay,
      startOfDay, lookupTs, upsertTs, putDayState, KillState.value,
      DAILY_SPEND_CAP, PER_MARKET_SPEND_CAP, MAX_OPEN_POSITIONS,
      SOFT_MAX_POSITIONS, HARD_DRAWDOWN, SOFT_DRAWDOWN,
      BREACH_HYSTERESIS_SECONDS, List.find?]
    decide
  have h4 : (riskGate ⟨"live"⟩ dbC3d 0 "TICK" "open" 1 1210).1.killState =
      KillState.soft := by
    rw [hd]
    norm_num [dbC3, riskGate, getDayState,
      aggregateRealized, aggregateSpend, countOpenPositions, breachStateOf,
      quantize4, roundHalfEven, updateHysteresis, openDecision, localDay,
      startOfDay, lookupTs, upsertTs, putDayState, KillState.value,
      DAILY_SPEND_CAP, PER_MARKET_SPEND_CAP, MAX_OPEN_POSITIONS,
      SOFT_MAX_POSITIONS, HARD_DRAWDOWN, SOFT_DRAWDOWN,
      BREACH_HYSTERESIS_SECONDS, List.find?]
    decide
  exact ⟨rfl, h2, h4⟩

/-- C3 (amended): the kill state never returns to NONE within a day — a
live-mode evaluation whose pre-call day-state row has a non-NONE kill state
returns a non-NONE kill state, and every (user, local-day) row of the
post-call database likewise keeps a non-NONE kill state.  (Monotonicity
between SOFT and HARD does not hold: a confirmed SOFT breach after a
committed HARD downgrades the state, as the counterexample shows.) -/
theorem riskGate_killState_never_clears (cfg : EngineConfig) (db : Db)
    (userId : ℕ) (ticker action : String) (spend : ℚ) (now : ℕ)
    (hLive : cfg.tradingMode = "live")
    (h : (gateDayState db userId now).killState ≠ KillState.none) :
    (riskGate cfg db userId ticker action spend now).1.killState ≠
      KillState.none := by
  have h' : (getDayState db userId now).1.killState ≠ KillState.none := by
    simpa [gateDayState] using h
  have hne : ∀ b n,
      (updateHysteresis
        { (getDayState db userId now).1 with
          realizedPnlToday := aggregateRealized (getDayState db userId now).2
            userId now } b n).killState ≠ KillState.none := by
    intro b n
    exact updateHysteresis_killState_ne_none _ b n h'
  simp only [riskGate]
  rw [if_neg (by simp [hLive])]
  simpa using hne _ now

/-- Witness for the amended C3 theorem: on a database whose day-state row
already carries a committed HARD kill state, the evaluation still reports a
non-NONE kill state. -/
theorem riskGate_killState_never_clears_witness :
    (riskGate ⟨"live"⟩ dbC3w 0 "TICK" "open" 1 1100).1.killState ≠
      KillState.none := by
  apply riskGate_killState_never_clears ⟨"live"⟩ dbC3w 0 "TICK" "open" 1 1100
    rfl
  norm_num [gateDayState, getDayState, dbC3w, localDay, List.find?]
  decide

/-! ## C4 -/

/-- C4 (counterexample): with trading disabled and no day-state row for the
(user, local day), the gate call still *creates* the day-state row before the
trading-mode check (the fetch/create runs first in `risk_gate`), so the claim
that no day-state creation occurs on the disabled path is false. -/
theorem riskGate_disabled_creates_day_state_cex :
    (⟨"paper"⟩ : EngineConfig).tradingMode ≠ "live" ∧
    dbC4.dayStates = [] ∧
    (riskGate ⟨"paper"⟩ dbC4 0 "TICK" "open" 10 1000).2.dayStates ≠ [] := by
  refine ⟨by decide, rfl, ?_⟩
  norm_num [riskGate, getDayState, dbC4, localDay, List.find?]
  decide

/-- C4 (amended): when the trading mode is not "live", `risk_gate`
deterministically returns the deny result (`allow_new_open = false`,
`size_multiplier = 0`, reason `TRADING_DISABLED`, empty limits,
`kill_state = NONE`) without raising; it skips ledger aggregation, breach
detection, hysteresis, cap checks and any day-state mutation — the only state
effect is that the day-state row is still lazily created by the fetch that
precedes the trading-mode check, and when the row already exists the
database is returned completely unchanged. -/
theorem riskGate_disabled_amended (cfg : EngineConfig) (db : Db) (userId : ℕ)
    (ticker action : String) (spend : ℚ) (now : ℕ)
    (hdis : cfg.tradingMode ≠ "live") :
    (riskGate cfg db userId ticker action spend now).1 =
      { allowNewOpen := false, sizeMultiplier := 0,
        effectiveLimits := Option.none,
        reasonCode := DecisionReason.tradingDisabled,
        killState := KillState.none } ∧
    (riskGate cfg db userId ticker action spend now).2 =
      (getDayState db userId now).2 ∧
    ((db.dayStates.find?
        (fun d => d.userId == userId && d.dateLocal == localDay now)).isSome →
      (riskGate cfg db userId ticker action spend now).2 = db) := by
  refine ⟨?_, ?_, ?_⟩
  · simp [riskGate, hdis]
  · simp [riskGate, hdis]
  · intro hsome
    obtain ⟨d, hd⟩ := Option.isSome_iff_exists.mp hsome
    simp [riskGate, hdis, getDayState, hd]

/-- Witness for the amended C4 theorem on a concrete disabled-mode call. -/
theorem riskGate_disabled_amended_witness :
    (riskGate ⟨"paper"⟩ dbC4 0 "TICK" "open" 10 1000).1 =
      { allowNewOpen := false, sizeMultiplier := 0,
        effectiveLimits := Option.none,
        reasonCode := DecisionReason.tradingDisabled,
        killState := KillState.none } ∧
    (riskGate ⟨"paper"⟩ dbC4 0 "TICK" "open" 10 1000).2 =
      (getDayState dbC4 0 1000).2 ∧
    ((dbC4.dayStates.find?
        (fun d => d.userId == 0 && d.dateLocal == localDay 1000)).isSome →
      (riskGate ⟨"paper"⟩ dbC4 0 "TICK" "open" 10 1000).2 = dbC4) :=
  riskGate_disabled_amended ⟨"paper"⟩ dbC4 0 "TICK" "open" 10 1000 (by decide)

/-! ## C6 -/

/-- C6 (counterexample): user 0 owns no position in either database, yet with
eight positions of user 1 on the book the `open` evaluation for user 0 is
denied with `TOO_MANY_POSITIONS`, while with an empty book it is allowed —
the decision depends on other users' positions, so the claim that the
position-count check depends only on the requesting user's own open
positions is false. -/
theorem countOpenPositions_user_scoped_cex :
    dbC6a.positions.filter (fun p => p.ownerUserId == 0) =
      dbC6b.positions.filter (fun p => p.ownerUserId == 0) ∧
    (riskGate ⟨"live"⟩ dbC6a 0 "TICK" "open" 10 1000).1.allowNewOpen =
      false ∧
    (riskGate ⟨"live"⟩ dbC6a 0 "TICK" "open" 10 1000).1.reasonCode =
      DecisionReason.tooManyPositions ∧
    (riskGate ⟨"live"⟩ dbC6b 0 "TICK" "open" 10 1000).1.allowNewOpen =
      true := by
  refine ⟨by decide, ?_, ?_, ?_⟩ <;>
  · norm_num [riskGate, getDayState, dbC6a, dbC6b, aggregateRealized,
      aggregateSpend, countOpenPositions, breachStateOf, quantize4,
      roundHalfEven, updateHysteresis, openDecision, localDay, startOfDay,
      lookupTs, upsertTs, putDayState, KillState.value, DAILY_SPEND_CAP,
      PER_MARKET_SPEND_CAP, MAX_OPEN_POSITIONS, SOFT_MAX_POSITIONS,
      HARD_DRAWDOWN, SOFT_DRAWDOWN, BREACH_HYSTERESIS_SECONDS, List.find?]
    decide

/-- C6 (amended): `_count_open_positions` returns the total number of rows of
the positions table for every user, and consequently the gate decision
depends on the positions table only through its total row count: two
databases that differ only in their position rows but agree on the count
yield identical gate results. -/
theorem riskGate_counts_all_positions (cfg : EngineConfig) (db : Db)
    (ps1 ps2 : List PositionRow) (userId : ℕ) (ticker action : String)
    (spend : ℚ) (now : ℕ) (hlen : ps1.length = ps2.length) :
    countOpenPositions { db with positions := ps1 } userId = ps1.length ∧
    (riskGate cfg { db with positions := ps1 } userId ticker action spend
        now).1 =
      (riskGate cfg { db with positions := ps2 } userId ticker action spend
        now).1 := by
  refine ⟨rfl, ?_⟩
  cases hfind : db.dayStates.find?
      (fun d => d.userId == userId && d.dateLocal == localDay now) with
  | none =>
      simp only [riskGate, getDayState, hfind, countOpenPositions, hlen]
      by_cases hm : cfg.tradingMode = "live"
      · simp only [if_neg (show ¬cfg.tradingMode ≠ "live" from by simp [hm])]
        rfl
      · simp only [if_pos hm]
  | some d =>
      simp only [riskGate, getDayState, hfind, countOpenPositions, hlen]
      by_cases hm : cfg.tradingMode = "live"
      · simp only [if_neg (show ¬cfg.tradingMode ≠ "live" from by simp [hm])]
        rfl
      · simp only [if_pos hm]

/-- Witness for the amended C6 theorem: two one-position books owned by
different users give the same gate result. -/
theorem riskGate_counts_all_positions_witness :
    countOpenPositions { dbC6b with positions := [⟨1⟩] } 0 =
      [(⟨1⟩ : PositionRow)].length ∧
    (riskGate ⟨"live"⟩ { dbC6b with positions := [⟨1⟩] } 0 "TICK" "open" 10
        1000).1 =
      (riskGate ⟨"live"⟩ { dbC6b with positions := [⟨0⟩] } 0 "TICK" "open" 10
        1000).1 :=
  riskGate_counts_all_positions ⟨"live"⟩ dbC6b [⟨1⟩] [⟨0⟩] 0 "TICK" "open" 10
    1000 rfl

/-! String disequalities used to evaluate profile lookups under `simp`. -/

theorem strNeConsMod : "conservative" ≠ "moderate" := by decide

theorem strNeConsAgg : "conservative" ≠ "aggressive" := by decide

theorem strNeModAgg : "moderate" ≠ "aggressive" := by decide

/-! ## C7 -/

/-- C7 (counterexample): for the aggressive profile (max position size 10%,
kelly fraction 0.5) with expected return 0.2 and win probability 0.9, the
claim's reference formula — capped at the *profile's* max position size —
gives 10, but the code caps at the manager's default-config
`max_position_size_percent` (5.0) and returns 5. -/
theorem kelly_profile_cap_cex :
    lookupAssoc riskProfilesSettings "aggressive" =
      some { maxPositionSizePercent := 10, kellyFraction := 1/2,
             minConfidenceThreshold := 50 } ∧
    calculateKellyPositionSize initialRMState (1/5) (9/10) "aggressive" = 5 ∧
    kellySizeClaimC7 { maxPositionSizePercent := 10, kellyFraction := 1/2,
                       minConfidenceThreshold := 50 } (1/5) (9/10) = 10 ∧
    (5 : ℚ) ≠ 10 := by
  refine ⟨by norm_num [lookupAssoc, riskProfilesSettings, strNeConsAgg,
    strNeModAgg], ?_, ?_, by norm_num⟩
  · norm_num [calculateKellyPositionSize, kellyFractionOf, lookupAssoc,
      initialRMState, riskProfilesSettings, defaultRiskConfig, strNeConsAgg,
      strNeModAgg, sup_eq_max, max_def, abs_of_pos]
  · norm_num [kellySizeClaimC7, sup_eq_max, max_def, abs_of_pos]

/-- C7 (amended): the Kelly recommendation equals the reference formula with
two changes forced by the code: outside the open interval
`0 < win_probability < 1` the result is 0, and the final cap is the default
risk config's `max_position_size_percent` (5.0 for every profile), not the
profile's own max position size. -/
theorem calculateKelly_eq_amended_ref (s : RMState)
    (expectedReturn winProbability : ℚ) (userRiskProfile : String) :
    calculateKellyPositionSize s expectedReturn winProbability
        userRiskProfile =
      kellySizeAmendedRef s expectedReturn winProbability userRiskProfile := by
  unfold calculateKellyPositionSize kellySizeAmendedRef
  by_cases her : expectedReturn = 0 <;>
    by_cases hw : winProbability ≤ 0 ∨ 1 ≤ winProbability
  · have : ¬(0 < winProbability ∧ winProbability < 1) := by
      rcases hw with h | h
      · exact fun hc => absurd hc.1 (not_lt.mpr h)
      · exact fun hc => absurd hc.2 (not_lt.mpr h)
    simp [her, hw, this]
  · have : 0 < winProbability ∧ winProbability < 1 := by
      rcases not_or.mp hw with ⟨h1, h2⟩
      exact ⟨not_le.mp h1, not_le.mp h2⟩
    simp [her, hw, this]
  · have : ¬(0 < winProbability ∧ winProbability < 1) := by
      rcases hw with h | h
      · exact fun hc => absurd hc.1 (not_lt.mpr h)
      · exact fun hc => absurd hc.2 (not_lt.mpr h)
    simp [her, hw, this]
  · have : 0 < winProbability ∧ winProbability < 1 := by
      rcases not_or.mp hw with ⟨h1, h2⟩
      exact ⟨not_le.mp h1, not_le.mp h2⟩
    simp [her, hw, this]

/-! ## C8 -/

/-- C8 (counterexample): Kelly sizing is not monotone over the whole
admissible range [0, 1]: for the moderate profile with expected return 0.2,
`w = 0.9` yields 5 while `w = 1` falls into the `w ≥ 1` guard and yields 0,
so a higher win probability yields a strictly smaller recommended size. -/
theorem kelly_monotone_boundary_cex :
    ((9 : ℚ)/10 ≤ 1) ∧
    calculateKellyPositionSize initialRMState (1/5) 1 "moderate" <
      calculateKellyPositionSize initialRMState (1/5) (9/10) "moderate" := by
  constructor
  · norm_num
  · norm_num [calculateKellyPositionSize, kellyFractionOf, lookupAssoc,
      initialRMState, riskProfilesSettings, defaultRiskConfig, strNeConsMod,
      sup_eq_max, max_def, abs_of_pos]

/-- C8 (amended): Kelly sizing is monotone non-decreasing in the win
probability on [0, 1) (the failure is confined to the `w ≥ 1` guard): for a
profile with non-negative kelly fraction and a non-negative config cap, if
`w1 ≤ w2 < 1` then the recommendation for `w1` is at most that for `w2`. -/
theorem kelly_monotone_amended (s : RMState) (expectedReturn : ℚ)
    (userRiskProfile : String) (w1 w2 : ℚ)
    (hkf : 0 ≤ kellyFractionOf s userRiskProfile)
    (hcfg : 0 ≤ s.config.maxPositionSizePercent)
    (h12 : w1 ≤ w2) (h2 : w2 < 1) :
    calculateKellyPositionSize s expectedReturn w1 userRiskProfile ≤
      calculateKellyPositionSize s expectedReturn w2 userRiskProfile := by
  have hwlr : 0 < (if expectedReturn ≠ 0 then |expectedReturn| / (5/100)
      else 1) := by
    split
    · next h =>
        have : 0 < |expectedReturn| := abs_pos.mpr h
        positivity
    · norm_num
  unfold calculateKellyPositionSize
  by_cases hw1 : w1 ≤ 0 ∨ 1 ≤ w1
  · rw [if_pos hw1]
    by_cases hw2 : w2 ≤ 0 ∨ 1 ≤ w2
    · rw [if_pos hw2]
    · rw [if_neg hw2]
      refine le_min ?_ hcfg
      have hmax : (0 : ℚ) ≤ max 0 (w2 - (1 - w2) /
          (if expectedReturn ≠ 0 then |expectedReturn| / (5/100) else 1)) :=
        le_max_left 0 _
      have hk100 : (0 : ℚ) ≤ kellyFractionOf s userRiskProfile * 100 := by
        positivity
      calc (0 : ℚ) = 0 * (kellyFractionOf s userRiskProfile * 100) := by ring
        _ ≤ max 0 (w2 - (1 - w2) /
              (if expectedReturn ≠ 0 then |expectedReturn| / (5/100) else 1)) *
              (kellyFractionOf s userRiskProfile * 100) := by
            exact mul_le_mul_of_nonneg_right hmax hk100
        _ = max 0 (w2 - (1 - w2) /
              (if expectedReturn ≠ 0 then |expectedReturn| / (5/100) else 1)) *
              kellyFractionOf s userRiskProfile * 100 := by ring
  · have hw2 : ¬(w2 ≤ 0 ∨ 1 ≤ w2) := by
      rcases not_or.mp hw1 with ⟨h1, _⟩
      exact not_or.mpr ⟨not_le.mpr (lt_of_lt_of_le (not_le.mp h1) h12),
        not_le.mpr h2⟩
    rw [if_neg hw1, if_neg hw2]
    refine min_le_min ?_ le_rfl
    have hdiv : (1 - w2) /
          (if expectedReturn ≠ 0 then |expectedReturn| / (5/100) else 1) ≤
        (1 - w1) /
          (if expectedReturn ≠ 0 then |expectedReturn| / (5/100) else 1) :=
      (div_le_div_iff_of_pos_right hwlr).mpr (by linarith)
    have hcore : w1 - (1 - w1) /
          (if expectedReturn ≠ 0 then |expectedReturn| / (5/100) else 1) ≤
        w2 - (1 - w2) /
          (if expectedReturn ≠ 0 then |expectedReturn| / (5/100) else 1) := by
      linarith
    have hmaxle := max_le_max (le_refl (0 : ℚ)) hcore
    have hk100 : (0 : ℚ) ≤ kellyFractionOf s userRiskProfile * 100 := by
      positivity
    calc max 0 (w1 - (1 - w1) /
          (if expectedReturn ≠ 0 then |expectedReturn| / (5/100) else 1)) *
          kellyFractionOf s userRiskProfile * 100
        = max 0 (w1 - (1 - w1) /
            (if expectedReturn ≠ 0 then |expectedReturn| / (5/100) else 1)) *
            (kellyFractionOf s userRiskProfile * 100) := by ring
      _ ≤ max 0 (w2 - (1 - w2) /
            (if expectedReturn ≠ 0 then |expectedReturn| / (5/100) else 1)) *
            (kellyFractionOf s userRiskProfile * 100) :=
          mul_le_mul_of_nonneg_right hmaxle hk100
      _ = max 0 (w2 - (1 - w2) /
            (if expectedReturn ≠ 0 then |expectedReturn| / (5/100) else 1)) *
            kellyFractionOf s userRiskProfile * 100 := by ring

/-- Witness for the amended C8 theorem at concrete inputs. -/
theorem kelly_monotone_amended_witness :
    calculateKellyPositionSize initialRMState (1/5) (1/2) "moderate" ≤
      calculateKellyPositionSize initialRMState (1/5) (3/4) "moderate" :=
  kelly_monotone_amended initialRMState (1/5) "moderate" (1/2) (3/4)
    (by norm_num [kellyFractionOf, lookupAssoc, initialRMState,
      riskProfilesSettings, strNeConsMod])
    (by norm_num [initialRMState, defaultRiskConfig])
    (by norm_num) (by norm_num)

/-! ## C10 -/

/-- C10: `assess_trade_risk` is total by construction (the outer
`try/except Exception` makes it return a `TradeRiskAssessment` on every
path, which the embedding reflects in its type), and whenever an internal
error occurs (the `err` oracle) the result is exactly the fail-closed
assessment: `approved = false`, risk level CRITICAL, risk score 100, a
single failed CRITICAL check — never an approval. -/
theorem assessTradeRisk_error_fail_closed (s : RMState) (mdb : MarketDb)
    (marketId side : String) (count : ℕ)
    (price expectedReturn winProbability : ℚ) (userRiskProfile : String) :
    assessTradeRisk true s mdb marketId side count price expectedReturn
        winProbability userRiskProfile = failClosedAssessment ∧
    (assessTradeRisk true s mdb marketId side count price expectedReturn
        winProbability userRiskProfile).approved = false ∧
    failClosedAssessment.riskLevel = RiskLevel.critical ∧
    failClosedAssessment.riskScore = 100 ∧
    failClosedAssessment.riskChecks = [{ passed := false,
                                          level := RiskLevel.critical,
                                          message := Msg.assessmentError }] :=
  ⟨rfl, rfl, rfl, rfl, rfl⟩

/-! ## C5 -/

/-- C5: `assess_trade_risk` approves only when the emergency stop is
inactive, risk checks are enabled, every returned `RiskCheck` passed, and —
when the named profile exists — the profile confidence floor
`win_probability*100 ≥ min_confidence_threshold` holds; and with the
emergency stop activated via `set_emergency_stop` the result is never
approved, whatever the other inputs. -/
theorem assessTradeRisk_approved_necessary (err : Bool) (s : RMState)
    (mdb : MarketDb) (marketId side : String) (count : ℕ)
    (price expectedReturn winProbability : ℚ) (userRiskProfile : String) :
    ((assessTradeRisk err s mdb marketId side count price expectedReturn
        winProbability userRiskProfile).approved = true →
      s.emergencyStopActive = false ∧ s.riskChecksEnabled = true ∧
      (∀ c ∈ (assessTradeRisk err s mdb marketId side count price
          expectedReturn winProbability userRiskProfile).riskChecks,
        c.passed = true) ∧
      (∀ p, lookupAssoc s.userProfiles userRiskProfile = some p →
        p.minConfidenceThreshold ≤ winProbability * 100)) ∧
    (assessTradeRisk err (setEmergencyStop s true "halt") mdb marketId side
        count price expectedReturn winProbability userRiskProfile).approved =
      false := by
  cases err with
  | true =>
      refine ⟨?_, ?_⟩
      · intro happ
        simp [assessTradeRisk, failClosedAssessment] at happ
      · simp [assessTradeRisk, failClosedAssessment]
  | false =>
      refine ⟨?_, ?_⟩
      · intro happ
        simp only [assessTradeRisk] at happ
        norm_num at happ
        rcases hpro : lookupAssoc s.userProfiles userRiskProfile with _ | p <;>
          rw [hpro] at happ
        · have happ0 := happ
          rw [Bool.and_eq_true] at happ0
          obtain ⟨hci, hall⟩ := happ0
          have hem : s.emergencyStopActive = false := by
            by_cases h : s.emergencyStopActive
            · simp [h] at hci
            · simpa using h
          have hen : s.riskChecksEnabled = true := by
            by_cases h : s.riskChecksEnabled
            · exact h
            · rw [Bool.not_eq_true] at h
              simp [h, hem] at hci
          refine ⟨hem, hen, ?_, ?_⟩
          · intro c hc
            simp only [assessTradeRisk] at hc ⊢
            norm_num at hc
            simp only [Bool.and_eq_true] at hall
            obtain ⟨ha1, ha2, ha3, ha4, ha5⟩ := hall
            rcases hc with h | h | h | h | h <;> subst h <;>
              first
                | exact ha1
                | exact ha2
                | exact ha3
                | exact ha4
                | exact ha5
          · intro p hp
            cases hp
        · simp only [Bool.and_eq_true] at happ
          obtain ⟨hnot, hci, hall⟩ := happ
          have hcond : ¬(winProbability * 100 < p.minConfidenceThreshold) := by
            simpa using hnot
          have hem : s.emergencyStopActive = false := by
            by_cases h : s.emergencyStopActive
            · simp [h] at hci
            · simpa using h
          have hen : s.riskChecksEnabled = true := by
            by_cases h : s.riskChecksEnabled
            · exact h
            · rw [Bool.not_eq_true] at h
              simp [h, hem] at hci
          refine ⟨hem, hen, ?_, ?_⟩
          · intro c hc
            simp only [assessTradeRisk] at hc ⊢
            norm_num at hc
            obtain ⟨ha1, ha2, ha3, ha4, ha5⟩ := hall
            rcases hc with h | h | h | h | h <;> subst h <;>
              first
                | exact ha1
                | exact ha2
                | exact ha3
                | exact ha4
                | exact ha5
          · intro q hq
            obtain rfl : p = q := by injection hq
            exact not_lt.mp hcond
      · simp only [assessTradeRisk, setEmergencyStop]
        rcases hpro : lookupAssoc s.userProfiles userRiskProfile with _ | p <;>
          simp [hpro]

/-- Witness for C5 at a concrete input: with the emergency stop set, the
assessment is rejected. -/
theorem assessTradeRisk_approved_necessary_witness :
    (assessTradeRisk false (setEmergencyStop initialRMState true "halt") []
        "MKT" "yes" 1 (1/2) (1/10) (7/10) "moderate").approved = false :=
  (assessTradeRisk_approved_necessary false initialRMState [] "MKT" "yes" 1
    (1/2) (1/10) (7/10) "moderate").2

/-! ## C9 -/

/-- C9: when the market id is not found, both the category-exposure check and
the correlation check return a passing LOW-risk `RiskCheck` with the
market-not-found explanatory message instead of failing or raising, and the
missing datum alone never forces a rejection: if the system flags, the three
market-independent checks and the profile floor are all fine, the assessment
is still approved. -/
theorem missing_market_degrades_gracefully (s : RMState) (mdb : MarketDb)
    (marketId side : String) (count : ℕ)
    (price expectedReturn winProbability : ℚ) (userRiskProfile : String)
    (hmiss : lookupAssoc mdb marketId = Option.none) :
    checkCategoryExposureRisk s mdb marketId ((count : ℚ) * price) =
      { passed := true, level := .low,
        message := .marketNotFoundCategory marketId } ∧
    checkCorrelationRisk s mdb marketId ((count : ℚ) * price) =
      { passed := true, level := .low,
        message := .marketNotFoundCorrelation marketId } ∧
    (s.emergencyStopActive = false → s.riskChecksEnabled = true →
      (checkDailyLossLimit s).passed = true →
      (checkDrawdownLimit s).passed = true →
      (checkPositionSizeRisk s ((count : ℚ) * price)).passed = true →
      (∀ p, lookupAssoc s.userProfiles userRiskProfile = some p →
        ¬(winProbability * 100 < p.minConfidenceThreshold)) →
      (assessTradeRisk false s mdb marketId side count price expectedReturn
          winProbability userRiskProfile).approved = true) := by
  have hcat : checkCategoryExposureRisk s mdb marketId ((count : ℚ) * price) =
      { passed := true, level := .low,
        message := .marketNotFoundCategory marketId } := by
    unfold checkCategoryExposureRisk
    rw [hmiss]
  have hcor : checkCorrelationRisk s mdb marketId ((count : ℚ) * price) =
      { passed := true, level := .low,
        message := .marketNotFoundCorrelation marketId } := by
    unfold checkCorrelationRisk
    rw [hmiss]
  refine ⟨hcat, hcor, ?_⟩
  intro hem hen h1 h2 h3 hfloor
  simp only [assessTradeRisk]
  rcases hpro : lookupAssoc s.userProfiles userRiskProfile with _ | p
  · simp [hpro, hem, hen, h1, h2, h3, hcat, hcor]
  · have hnc : ¬(winProbability * 100 < p.minConfidenceThreshold) :=
      hfloor p hpro
    simp [hpro, hem, hen, h1, h2, h3, hcat, hcor, hnc]

/-- Witness for C9: on an empty market table every assessment input with
healthy market-independent state is approved, and the two market-dependent
checks pass with the explanatory message. -/
theorem missing_market_degrades_gracefully_witness :
    checkCategoryExposureRisk initialRMState [] "MKT" ((1 : ℚ) * (1/2)) =
      { passed := true, level := .low,
        message := .marketNotFoundCategory "MKT" } ∧
    (assessTradeRisk false initialRMState [] "MKT" "yes" 1 (1/2) (1/10)
        (7/10) "moderate").approved = true := by
  have h := missing_market_degrades_gracefully initialRMState [] "MKT" "yes" 1
    (1/2) (1/10) (7/10) "moderate" rfl
  refine ⟨by simpa using h.1, ?_⟩
  refine h.2.2 rfl rfl ?_ ?_ ?_ ?_
  · norm_num [checkDailyLossLimit, effectiveDailyPnl, initialRMState,
      defaultRiskConfig]
  · norm_num [checkDrawdownLimit, initialRMState]
  · norm_num [checkPositionSizeRisk, initialRMState, defaultRiskConfig]
  · intro p hp
    norm_num [lookupAssoc, initialRMState, riskProfilesSettings,
      strNeConsMod] at hp
    rw [← hp]
    norm_num
